import Mathlib

/-
Verification development for the claude-kit generative-media orchestration
repository. The definitions below are a shallow embedding of the TypeScript
sources: external collaborators (the genkit ai handle, the MCP tool host,
fetch, the filesystem, ffmpeg) are modelled as explicit environment records,
and each flow body is translated into a pure Lean function over such an
environment. File/line references in the doc comments point into the
repository sources.
-/

/- ### Observable events emitted by a flow run

Remote and filesystem side effects of the flow bodies, in the order the code
performs them. Console logging is omitted (diagnostic only, never read). -/
inductive Event where
  | ensureDir (d : String)
  | submit (model : String)
  | sleep (ms : Nat)
  | check
  | fetch (url : String)
  | fileWrite (p : String)
  | genImage
  | writeImage
  | genTts
  | mux
  | genTweet
  deriving DecidableEq

/-- Whitespace class of the JavaScript regex escapes, restricted to the ASCII
characters that can occur in the tool outputs being matched. -/
def jsSpace (c : Char) : Bool :=
  c = ' ' || c = '\t' || c = '\n' || c = '\r' || c = '\x0b' || c = '\x0c'

/-- Literal character list for the ".mp3" suffix required by both regexes in
src/flows/tts.ts and src/flows/video.ts. -/
def dotMp3 : List Char := ['.', 'm', 'p', '3']

/-- Greedy match of the regex fragment consisting of one-or-more non-space
characters followed by the literal ".mp3", applied to a maximal non-space run:
the longest prefix of the run that splits as a nonempty group followed by
".mp3". Mirrors the backtracking behaviour of the JavaScript engine, which
consumes the run greedily and gives back characters until the ".mp3" literal
matches, so the match ends at the last ".mp3" inside the run. -/
def greedyMp3Take (run : List Char) : Option (List Char) :=
  ((List.range (run.length + 1)).reverse.find? fun j =>
    decide (1 ≤ j) && ((run.drop j).take 4 == dotMp3)).map
      (fun j => run.take (j + 4))

/-- Scanner for the regex matching a slash, then one-or-more non-space
characters, then ".mp3" (src/flows/tts.ts line 93 and src/flows/video.ts line
539): tries every start position left to right and returns the first (leftmost)
match, as the JavaScript match method does without the global flag. -/
def matchSlashMp3Aux : List Char → Option (List Char)
  | [] => none
  | c :: cs =>
    if c = '/' then
      let run := cs.takeWhile (fun ch => !jsSpace ch)
      match greedyMp3Take run with
      | some p => some ('/' :: p)
      | none => matchSlashMp3Aux cs
    else matchSlashMp3Aux cs

/-- String-level wrapper of the slash-path regex match. -/
def matchSlashMp3 (s : String) : Option String :=
  (matchSlashMp3Aux s.toList).map String.mk

/-- Case-insensitive comparison of a (lowercase) pattern against the start of a
character list, for the labelled alternatives of the first tts.ts regex. -/
def startsWithCI (pat : List Char) (l : List Char) : Bool :=
  (l.take pat.length).map Char.toLower == pat

/-- Scanner for the first regex of src/flows/tts.ts line 92: one of the labels
"saved to", "path" or "file" (case-insensitive), a colon, optional whitespace,
then the captured group of one-or-more non-space characters ending in ".mp3".
Returns the capture group of the leftmost match. -/
def matchLabeledMp3Aux : List Char → Option (List Char)
  | [] => none
  | c :: cs =>
    let l := c :: cs
    let tryLabel (lbl : List Char) : Option (List Char) :=
      if startsWithCI (lbl ++ [':']) l then
        let rest := l.drop (lbl.length + 1)
        let run := (rest.dropWhile jsSpace).takeWhile (fun ch => !jsSpace ch)
        greedyMp3Take run
      else none
    match tryLabel ("saved to").toList <|>
          tryLabel ("path").toList <|>
          tryLabel ("file").toList with
    | some cap => some cap
    | none => matchLabeledMp3Aux cs

/-- Path extraction of src/flows/tts.ts lines 92-93 and 97: the first regex
takes priority and its capture group is used; otherwise the whole match of the
slash-path regex is used. -/
def ttsPathMatch (s : String) : Option String :=
  match matchLabeledMp3Aux s.toList with
  | some cap => some (String.mk cap)
  | none => matchSlashMp3 s

/-- Output directory of src/utils/constants.ts: path.join of the process
working directory and "output", modelled relative to the working directory. -/
def OUTPUT_DIR : String := "output"

/-- Model of path.join for one separator level. -/
def pathJoin (a b : String) : String := a ++ "/" ++ b

/-- Character-level model of the startsWith test of JavaScript strings,
written over the underlying character lists so that it evaluates inside the
kernel. -/
def strStartsWith (s pre : String) : Bool :=
  s.toList.take pre.toList.length == pre.toList

/-- Character-level model of the endsWith test of JavaScript strings. -/
def strEndsWith (s suf : String) : Bool :=
  s.toList.drop (s.toList.length - suf.toList.length) == suf.toList
    && suf.toList.length ≤ s.toList.length

/-- JavaScript truthiness of an optional string: undefined and the empty
string are falsy. -/
def jsTruthyOpt : Option String → Bool
  | some s => s ≠ ""
  | none => false

/-- JavaScript template-literal rendering of a possibly-undefined string. -/
def jsTemplate : Option String → String
  | some s => s
  | none => "undefined"

/- ### Tool-invocation host records -/

/-- Output value of one recorded tool call. The tool host returns either a
plain string or a structured value; the structured constructor carries the
JSON serialization that JSON.stringify would produce for it, since the value
itself is a black box to this repository. -/
inductive ToolOutput where
  | str (s : String)
  | structured (json : String)
  deriving DecidableEq

/-- Stringification applied by src/flows/tts.ts line 89 and
src/flows/tweet.ts line 57: a string output is used directly, any other value
is JSON.stringified. -/
def ToolOutput.asText : ToolOutput → String
  | ToolOutput.str s => s
  | ToolOutput.structured json => json

/-- One structured call entry of a tool-invocation response; the flows only
read its output field. -/
structure ToolCall where
  output : ToolOutput
  deriving DecidableEq

/- ### Long-running operation model (Veo flows) -/

/-- Media reference inside an operation output part; the url may be absent. -/
structure MediaRef where
  url : Option String
  deriving DecidableEq

/-- One content part of the operation output message; text parts carry no
media field. -/
structure MediaPart where
  media : Option MediaRef
  deriving DecidableEq

/-- Message held by a completed operation output. -/
structure OpMessage where
  content : List MediaPart
  deriving DecidableEq

/-- Output of a completed operation; the message may be absent. -/
structure OpOutput where
  message : Option OpMessage
  deriving DecidableEq

/-- Remote long-running operation handle as observed by the flows: an optional
id, the done flag, an optional error (modelled by its message) and the
optional output payload. -/
structure Operation where
  id : Option String
  done : Bool
  error : Option String
  output : Option OpOutput
  deriving DecidableEq

/-- Media extraction of src/flows/veo-video.ts line 183: the first
media-bearing part of the operation output content, then its url. -/
def Operation.mediaUrl (op : Operation) : Option String :=
  (op.output.bind (fun o => o.message)).bind (fun m =>
    (m.content.find? (fun part => part.media.isSome)).bind
      (fun part => part.media.bind (fun r => r.url)))

/-- Usability test of src/flows/veo-video.ts line 184: the extracted url must
be present and truthy (a present empty string is falsy in JavaScript). -/
def usableMediaUrl (op : Operation) : Option String :=
  match op.mediaUrl with
  | some u => if u = "" then none else some u
  | none => none

/-- Polling loop shared by every Veo flow (src/flows/veo-video.ts lines
170-176 and its five clones): while the operation is not done, suspend for the
interval, then re-query. The remote status sequence is modelled by states,
where states 0 is the operation returned by the submission and states (n+1)
is the result of the n-th checkOperation call. The source loop is unbounded;
the fuel argument bounds the number of iterations the model is allowed to
observe, and a result of none means the loop was still running after that
many iterations. -/
def pollOperation (states : Nat → Operation) (interval : Nat) :
    Nat → Nat → Option Operation × List Event
  | fuel, i =>
    if (states i).done then (some (states i), [])
    else
      match fuel with
      | 0 => (none, [])
      | f + 1 =>
        let r := pollOperation states interval f (i + 1)
        (r.1, Event.sleep interval :: Event.check :: r.2)

/-- Canonical trace of k poll iterations: each iteration is one suspension
followed by one status re-query. -/
def pollBlocks (interval : Nat) : Nat → List Event
  | 0 => []
  | k + 1 => Event.sleep interval :: Event.check :: pollBlocks interval k

/- ### Veo generation flows -/

/-- Outcome of the ai.generate submission call: the promise may reject, may
resolve without an operation handle, or may yield an operation (whose states
are then given by the environment). -/
inductive SubmitOutcome where
  | throws (msg : String)
  | noOperation
  | operation

/-- External world of one Veo flow run: credential lookup, submission outcome,
the remote operation state sequence, the download outcome (some statusText on
a failed or bodyless fetch), the clock and the filesystem. -/
structure VeoEnv where
  apiKey : Option String
  submitOutcome : SubmitOutcome
  opStates : Nat → Operation
  downloadFail : Option String
  now : Nat
  fileExists : String → Bool

/-- Result record returned by the Veo flows (src/flows/veo-video.ts lines
197-209 and clones). All four fields are optional in the source. -/
structure VeoResult where
  videoPath : Option String
  videoUrl : Option String
  traceId : Option String
  error : Option String
  deriving DecidableEq

/-- Failure result built by the catch block of every Veo flow. -/
def veoErr (msg : String) : VeoResult :=
  { videoPath := none, videoUrl := none, traceId := none, error := some msg }

/-- Error thrown by downloadVideo (src/flows/veo-video.ts lines 26-28) when no
API key variable is configured. -/
def missingKeyMsg : String :=
  "Missing API key for video download. Set GEMINI_API_KEY or GOOGLE_API_KEY environment variable."

/-- Static parameters distinguishing the six Veo flow variants: model name,
poll interval in milliseconds, output file name tag, error message prefix used
when the remote job reports failure, and the artifact-not-found message. -/
structure VeoParams where
  model : String
  intervalMs : Nat
  fileTag : String
  failMsgHead : String
  notFoundMsg : String

/-- Common body of the six Veo flows (src/flows/veo-video.ts lines 142-211 and
its clones), after any input validation: ensure the output directory, submit
the generation request, poll the operation, check the remote error, locate the
media url, then download to the deterministic output path. Every throw is
routed to the catch block, which returns veoErr of the message. The first
component is none when the polling loop had not finished within the modelled
fuel; the second component is the event trace so far. -/
def runVeoCore (p : VeoParams) (env : VeoEnv) (fuel : Nat) :
    Option VeoResult × List Event :=
  let evs1 := [Event.ensureDir OUTPUT_DIR, Event.submit p.model]
  match env.submitOutcome with
  | SubmitOutcome.throws msg => (some (veoErr msg), evs1)
  | SubmitOutcome.noOperation =>
    (some (veoErr ("Expected the model to return an operation")), evs1)
  | SubmitOutcome.operation =>
    let pr := pollOperation env.opStates p.intervalMs fuel 0
    let evs2 := evs1 ++ pr.2
    match pr.1 with
    | none => (none, evs2)
    | some op =>
      match op.error with
      | some m => (some (veoErr (p.failMsgHead ++ m)), evs2)
      | none =>
        match usableMediaUrl op with
        | none => (some (veoErr p.notFoundMsg), evs2)
        | some url =>
          let vp := pathJoin OUTPUT_DIR (p.fileTag ++ toString env.now ++ ".mp4")
          match env.apiKey with
          | none => (some (veoErr missingKeyMsg), evs2)
          | some _ =>
            match env.downloadFail with
            | some st =>
              (some (veoErr ("Failed to download video: " ++ st)),
               evs2 ++ [Event.fetch url])
            | none =>
              (some { videoPath := some vp, videoUrl := some url,
                      traceId := op.id, error := none },
               evs2 ++ [Event.fetch url, Event.fileWrite vp])

/-- Parameters of veo31TextToVideoFlow (src/flows/veo-video.ts lines 100-213):
high-quality model, 5000 ms poll interval. -/
def veo31TextToVideoParams : VeoParams :=
  { model := "veo-3.1-generate-preview", intervalMs := 5000,
    fileTag := "veo31_", failMsgHead := "Video generation failed: ",
    notFoundMsg := "Failed to find the generated video in the operation output" }

/-- Parameters of veo31FastTextToVideoFlow (lines 219-313): fast model,
3000 ms poll interval. -/
def veo31FastTextToVideoParams : VeoParams :=
  { model := "veo-3.1-fast-generate-preview", intervalMs := 3000,
    fileTag := "veo31fast_", failMsgHead := "Video generation failed: ",
    notFoundMsg := "Failed to find the generated video in the operation output" }

/-- Parameters of veo31ImageToVideoFlow (lines 319-442). -/
def veo31ImageToVideoParams : VeoParams :=
  { model := "veo-3.1-generate-preview", intervalMs := 5000,
    fileTag := "veo31_i2v_", failMsgHead := "Video generation failed: ",
    notFoundMsg := "Failed to find the generated video in the operation output" }

/-- Parameters of veo31FastImageToVideoFlow (lines 559-674). -/
def veo31FastImageToVideoParams : VeoParams :=
  { model := "veo-3.1-fast-generate-preview", intervalMs := 3000,
    fileTag := "veo31fast_i2v_", failMsgHead := "Video generation failed: ",
    notFoundMsg := "Failed to find the generated video in the operation output" }

/-- Parameters of veo31VideoToVideoFlow (lines 448-553). -/
def veo31VideoToVideoParams : VeoParams :=
  { model := "veo-3.1-generate-preview", intervalMs := 5000,
    fileTag := "veo31_extend_", failMsgHead := "Video extension failed: ",
    notFoundMsg := "Failed to find the extended video in the operation output" }

/-- Parameters of veo31FastVideoToVideoFlow (lines 680-785). -/
def veo31FastVideoToVideoParams : VeoParams :=
  { model := "veo-3.1-fast-generate-preview", intervalMs := 3000,
    fileTag := "veo31fast_extend_", failMsgHead := "Video extension failed: ",
    notFoundMsg := "Failed to find the extended video in the operation output" }

/-- veo31TextToVideoFlow: no input validation before the common body. The
prompt and config fields feed only the request payload and do not influence
the control flow being verified, so they are not modelled. -/
def veo31TextToVideoFlow (env : VeoEnv) (fuel : Nat) :
    Option VeoResult × List Event :=
  runVeoCore veo31TextToVideoParams env fuel

/-- veo31FastTextToVideoFlow. -/
def veo31FastTextToVideoFlow (env : VeoEnv) (fuel : Nat) :
    Option VeoResult × List Event :=
  runVeoCore veo31FastTextToVideoParams env fuel

/-- veo31ImageToVideoFlow (src/flows/veo-video.ts lines 355-440): validates
first that the input image exists (line 362, before any remote call); on a
missing file the thrown error is caught and returned and no event occurs. -/
def veo31ImageToVideoFlow (env : VeoEnv) (imagePath : String) (fuel : Nat) :
    Option VeoResult × List Event :=
  if env.fileExists imagePath then runVeoCore veo31ImageToVideoParams env fuel
  else (some (veoErr ("Image file not found: " ++ imagePath)), [])

/-- veo31FastImageToVideoFlow (lines 588-672), same validation at line 595. -/
def veo31FastImageToVideoFlow (env : VeoEnv) (imagePath : String) (fuel : Nat) :
    Option VeoResult × List Event :=
  if env.fileExists imagePath then runVeoCore veo31FastImageToVideoParams env fuel
  else (some (veoErr ("Image file not found: " ++ imagePath)), [])

/-- veo31VideoToVideoFlow (lines 476-551): the input video url feeds only the
request payload, so it is not a parameter of the model. -/
def veo31VideoToVideoFlow (env : VeoEnv) (fuel : Nat) :
    Option VeoResult × List Event :=
  runVeoCore veo31VideoToVideoParams env fuel

/-- veo31FastVideoToVideoFlow (lines 708-783). -/
def veo31FastVideoToVideoFlow (env : VeoEnv) (fuel : Nat) :
    Option VeoResult × List Event :=
  runVeoCore veo31FastVideoToVideoParams env fuel

/-- Field names of the declared output schema of veo31VideoToVideoFlow
(src/flows/veo-video.ts lines 470-474): videoPath, traceId and error only;
the videoUrl key is absent from this schema. -/
def veo31VideoToVideoOutputSchemaKeys : List String :=
  [("videoPath"), ("traceId"), ("error")]

/- ### Image generation flow -/

/-- External world of one imageGenerationFlow run: whether ai.generate
rejects (with the error message), the media url of the response when it
resolves, whether the fetch of a non-data url rejects, and the clock. -/
structure ImageEnv where
  genThrows : Option String
  mediaUrl : Option String
  fetchThrows : Option String
  now : Nat

/-- Result record of imageGenerationFlow (src/flows/image.ts lines 22-26):
the declared output schema has exactly the fields imagePath, success and
prompt; it has no error field. -/
structure ImageGenResult where
  imagePath : Option String
  success : Bool
  prompt : String
  deriving DecidableEq

/-- Body of imageGenerationFlow (src/flows/image.ts lines 28-84): generate,
read response.media url, return a success=false record when it is missing,
otherwise decode a data url or fetch a remote url, write the file under the
timestamped name and return the path with success=true. Both the catch block
(line 77) and the missing-url return (line 44) produce the same record shape
with success=false and no error information. A JavaScript-falsy empty url
string is treated as missing by the truthiness test at line 44. -/
def imageGenerationFlow (env : ImageEnv) (prompt : String) : ImageGenResult :=
  match env.genThrows with
  | some _ => { imagePath := none, success := false, prompt := prompt }
  | none =>
    match env.mediaUrl with
    | none => { imagePath := none, success := false, prompt := prompt }
    | some url =>
      if url = "" then { imagePath := none, success := false, prompt := prompt }
      else if (!strStartsWith url ("data:")) && env.fetchThrows.isSome then
        { imagePath := none, success := false, prompt := prompt }
      else
        { imagePath := some (pathJoin OUTPUT_DIR ("image_" ++ toString env.now ++ ".jpg")),
          success := true, prompt := prompt }

/- ### Text-to-speech flow -/

/-- External world of one textToSpeechFlow run: whether the tool host or the
generate call rejects, and the structured tool call entries recorded in the
response. -/
structure TtsEnv where
  mcpThrows : Option String
  toolCalls : List ToolCall

/-- Result record of textToSpeechFlow (src/flows/tts.ts lines 63-67). -/
structure TtsResult where
  audioPath : Option String
  success : Bool
  error : Option String
  deriving DecidableEq

/-- Body of textToSpeechFlow (src/flows/tts.ts lines 69-123): when the
response records at least one tool call, the first call output is stringified
and the mp3-path regexes are applied to it; a match is returned as the audio
path without consulting the filesystem or the output directory. When the
regexes fail, the flow fails with the could-not-extract message carrying the
raw text. When no tool call was recorded, the flow fails with the fixed
no-tool-calls message; the output directory is never scanned on this path. -/
def textToSpeechFlow (env : TtsEnv) : TtsResult :=
  match env.mcpThrows with
  | some m => { audioPath := none, success := false, error := some m }
  | none =>
    match env.toolCalls with
    | [] =>
      { audioPath := none, success := false,
        error := some ("No tool calls were made") }
    | tc :: _ =>
      let outputText := tc.output.asText
      match ttsPathMatch outputText with
      | some pth => { audioPath := some pth, success := true, error := none }
      | none =>
        { audioPath := none, success := false,
          error := some ("Could not extract file path from tool output: " ++ outputText) }

/- ### Post-tweet flow -/

/-- External world of one postTweetFlow run. -/
structure TweetEnv where
  mcpThrows : Option String
  toolCalls : List ToolCall

/-- Result record of postTweetFlow (src/flows/tweet.ts lines 26-31). -/
structure TweetResult where
  success : Bool
  tweetId : Option String
  result : Option String
  error : Option String
  deriving DecidableEq

/-- Body of postTweetFlow (src/flows/tweet.ts lines 33-81): when the response
records at least one tool call, the first call output is stringified and
returned as the result text with success=true, with no inspection of its
content; when no tool call was recorded the flow fails with the fixed
no-tool-calls message. -/
def postTweetFlow (env : TweetEnv) : TweetResult :=
  match env.mcpThrows with
  | some m => { success := false, tweetId := none, result := none, error := some m }
  | none =>
    match env.toolCalls with
    | [] =>
      { success := false, tweetId := none, result := none,
        error := some ("No tool calls were made") }
    | tc :: _ =>
      { success := true, tweetId := none,
        result := some tc.output.asText, error := none }

/- ### Audio location of the video-with-voiceover pipeline -/

/-- Directory filter of src/flows/video.ts lines 547-549: files whose name
ends in .mp3 or .wav. Directory entries are (name, mtime) pairs in listing
order. -/
def audioDirCandidates (dir : List (String × Nat)) : List (String × Nat) :=
  dir.filter (fun f => strEndsWith f.1 (".mp3") || strEndsWith f.1 (".wav"))

/-- Recency ranking of src/flows/video.ts lines 551-561: sort the candidates
by mtime descending (a stable sort, so the earliest-listed entry wins a tie)
and take the first, joined under the output directory. -/
def mostRecentAudioPath (dir : List (String × Nat)) : Option String :=
  match audioDirCandidates dir with
  | [] => none
  | x :: xs =>
    some (pathJoin OUTPUT_DIR (xs.foldl (fun best f => if f.2 > best.2 then f else best) x).1)

/-- Usability of the text-matched path (src/flows/video.ts line 545): the
regex must have matched and the matched file must exist. -/
def textPathUsable (text : Option String) (ex : String → Bool) : Bool :=
  match text.bind matchSlashMp3 with
  | some pth => ex pth
  | none => false

/-- Audio location of src/flows/video.ts lines 535-563: method 1 matches the
slash-mp3 regex against the response text; when that is absent or names a file
that does not exist, method 2 replaces it by the most recent matching file of
the output directory, when the directory has one (otherwise the method-1 value
is kept unchanged). -/
def locateAudio (text : Option String) (dir : List (String × Nat))
    (ex : String → Bool) : Option String :=
  let m1 := text.bind matchSlashMp3
  if textPathUsable text ex then m1
  else
    match mostRecentAudioPath dir with
    | some pth => some pth
    | none => m1

/- ### Video-with-voiceover pipeline -/

/-- External world of one videoWithVoiceoverFlow run. -/
structure VvEnv where
  imageMediaUrl : Option String
  imageFetchThrows : Option String
  ttsThrows : Option String
  ttsText : Option String
  dirFiles : List (String × Nat)
  fsExists : String → Bool
  muxError : Option String
  tweetText : Option String
  nowImage : Nat
  nowVideo : Nat

/-- Result record of videoWithVoiceoverFlow (src/flows/video.ts lines
451-460), built by mutation stage by stage; the catch block returns it with
every field already recorded. -/
structure VvResult where
  imageUrl : Option String
  audioPath : Option String
  videoPath : Option String
  tweetStatus : Option String
  error : Option String
  deriving DecidableEq

/-- Failure of the image save step: the media url is a remote url and its
fetch rejects. -/
def vvImageSaveFails (env : VvEnv) : Bool :=
  match env.imageMediaUrl with
  | some u => (!strStartsWith u ("data:")) && env.imageFetchThrows.isSome
  | none => false

/-- Error message thrown at src/flows/video.ts lines 569-571 when no usable
audio file was located, carrying the raw response text. -/
def vvAudioFailMsg (t : Option String) : String :=
  "Failed to generate or locate audio file. TTS Response: " ++ jsTemplate t

/-- Existence check of src/flows/video.ts line 568 applied to the located
audio path. -/
def vvAudioOk (env : VvEnv) : Bool :=
  match locateAudio env.ttsText env.dirFiles env.fsExists with
  | some pth => env.fsExists pth
  | none => false

/-- Body of videoWithVoiceoverFlow (src/flows/video.ts lines 462-626). The
result record is mutated stage by stage: imageUrl is recorded before the
image truthiness check, audioPath before the audio existence check, and the
catch block returns the partially-filled record with the error message. The
muxing step and the optional publish step run only when every prior stage
succeeded. -/
def videoWithVoiceoverFlow (env : VvEnv) (postOnX : Bool) :
    VvResult × List Event :=
  let r1 : VvResult :=
    { imageUrl := env.imageMediaUrl, audioPath := none, videoPath := none,
      tweetStatus := none, error := none }
  let evs1 := [Event.genImage]
  if !jsTruthyOpt env.imageMediaUrl then
    ({ r1 with error := some ("Failed to generate image") }, evs1)
  else if vvImageSaveFails env then
    ({ r1 with error := env.imageFetchThrows }, evs1)
  else
    let evs2 := evs1 ++ [Event.writeImage, Event.genTts]
    match env.ttsThrows with
    | some m => ({ r1 with error := some m }, evs2)
    | none =>
      let a := locateAudio env.ttsText env.dirFiles env.fsExists
      let r2 : VvResult := { r1 with audioPath := a }
      if !vvAudioOk env then
        ({ r2 with error := some (vvAudioFailMsg env.ttsText) }, evs2)
      else
        let vp := pathJoin OUTPUT_DIR ("video_" ++ toString env.nowVideo ++ ".mp4")
        let evs3 := evs2 ++ [Event.mux]
        match env.muxError with
        | some m => ({ r2 with error := some m }, evs3)
        | none =>
          let r3 : VvResult := { r2 with videoPath := some vp }
          if postOnX then
            let ts :=
              match env.tweetText with
              | some t => if t = "" then ("Posted to X successfully") else t
              | none => ("Posted to X successfully")
            ({ r3 with tweetStatus := some ts }, evs3 ++ [Event.genTweet])
          else (r3, evs3)

/- ### MCP tool dispatch handler -/

/-- One incoming CallTool request: the tool name and the optional arguments
object (a present object may be empty). -/
structure CallRequest where
  name : String
  args : Option (List (String × String))

/-- Response returned by the CallTool handler: the single text content item
and the isError flag (absent in the source success shape, modelled false). -/
structure ToolResponse where
  text : String
  isError : Bool
  deriving DecidableEq

/-- External world of the dispatch handler: the stringified result each flow
returns when invoked. -/
structure McpEnv where
  flowOutput : String → List (String × String) → String

/-- Tool names handled by the dispatch switch of the MCP server (mcp-server
source, lines 320-359): these eight cases dispatch to a flow; any other name
reaches the default case. -/
def mcpToolNames : List String :=
  [("generate_image"), ("combine_image_audio_to_video"),
   ("veo31_text_to_video"), ("veo31_fast_text_to_video"),
   ("veo31_image_to_video"), ("veo31_fast_image_to_video"),
   ("veo31_video_extension"), ("veo31_fast_video_extension")]

/-- Required parameters of the generate_image tool as declared in the
ListTools schema of the MCP server (lines 36-45). -/
def generateImageRequiredParams : List String := [("prompt")]

/-- CallTool handler of the MCP server (lines 304-383): when the arguments
object is absent the fixed no-arguments error is returned before any dispatch;
otherwise the switch dispatches by name, the flow result is stringified into
the response text, and an unknown name throws, which the catch turns into the
unknown-tool error. The second component records the flow invocations made. -/
def handleCallTool (env : McpEnv) (req : CallRequest) :
    ToolResponse × List (String × List (String × String)) :=
  match req.args with
  | none => ({ text := "Error: No arguments provided", isError := true }, [])
  | some m =>
    if req.name ∈ mcpToolNames then
      ({ text := env.flowOutput req.name m, isError := false }, [(req.name, m)])
    else
      ({ text := "Error: Unknown tool: " ++ req.name, isError := true }, [])

/- ### Shared lemmas about the polling loop -/

/-- The event trace of the polling loop is always a sequence of complete
iterations, each one suspension followed by one status re-query. -/
theorem pollOperation_trace_blocks (states : Nat → Operation) (interval : Nat) :
    ∀ fuel i, ∃ k, (pollOperation states interval fuel i).2 = pollBlocks interval k := by
  intro fuel
  induction fuel with
  | zero =>
    intro i
    refine ⟨0, ?_⟩
    cases hd : (states i).done <;> simp [pollOperation, hd, pollBlocks]
  | succ f ih =>
    intro i
    cases hd : (states i).done
    · obtain ⟨k, hk⟩ := ih (i + 1)
      exact ⟨k + 1, by simp [pollOperation, hd, pollBlocks, hk]⟩
    · exact ⟨0, by simp [pollOperation, hd, pollBlocks]⟩

/-- Every event of a poll trace is a suspension for the fixed interval or a
status re-query. -/
theorem mem_pollBlocks {interval : Nat} {e : Event} :
    ∀ {k : Nat}, e ∈ pollBlocks interval k →
      e = Event.sleep interval ∨ e = Event.check := by
  intro k
  induction k with
  | zero => intro h; simp [pollBlocks] at h
  | succ n ih =>
    intro h
    simp only [pollBlocks, List.mem_cons] at h
    rcases h with h | h | h
    · exact Or.inl h
    · exact Or.inr h
    · exact ih h

/-- The polling loop hands an operation back to the flow only when that
operation reports done. -/
theorem pollOperation_done (states : Nat → Operation) (interval : Nat) :
    ∀ fuel i op, (pollOperation states interval fuel i).1 = some op →
      op.done = true := by
  intro fuel
  induction fuel with
  | zero =>
    intro i op h
    cases hd : (states i).done
    · simp [pollOperation, hd] at h
    · simp [pollOperation, hd] at h
      rw [← h]; exact hd
  | succ f ih =>
    intro i op h
    cases hd : (states i).done
    · simp [pollOperation, hd] at h
      exact ih (i + 1) op h
    · simp [pollOperation, hd] at h
      rw [← h]; exact hd

/-- When the remote operation never reports done, no amount of fuel makes the
polling loop produce a result: the source loop has no iteration bound and
would spin (suspending each time) forever. -/
theorem pollOperation_never (states : Nat → Operation) (interval : Nat)
    (hnever : ∀ n, (states n).done = false) :
    ∀ fuel i, (pollOperation states interval fuel i).1 = none := by
  intro fuel
  induction fuel with
  | zero => intro i; simp [pollOperation, hnever i]
  | succ f ih => intro i; simp [pollOperation, hnever i, ih (i + 1)]

/-- A suspension occurring in a poll trace always uses the fixed interval. -/
theorem sleep_mem_pollBlocks {interval ms k : Nat}
    (h : Event.sleep ms ∈ pollBlocks interval k) : ms = interval := by
  rcases mem_pollBlocks h with h | h
  · exact Event.sleep.inj h
  · simp at h

/-- Sleeps inside a Veo flow run all use the interval of that flow variant:
the pre-poll events carry no sleep, the poll trace sleeps exactly the
variant interval, and the post-poll events carry no sleep. -/
theorem runVeoCore_sleep_interval (p : VeoParams) (env : VeoEnv) (fuel : Nat)
    (ms : Nat) (h : Event.sleep ms ∈ (runVeoCore p env fuel).2) :
    ms = p.intervalMs := by
  obtain ⟨k, hk⟩ := pollOperation_trace_blocks env.opStates p.intervalMs fuel 0
  unfold runVeoCore at h
  cases hs : env.submitOutcome <;> simp only [hs] at h
  case throws msg => simp at h
  case noOperation => simp at h
  case operation =>
    rcases hp : (pollOperation env.opStates p.intervalMs fuel 0).1 with _ | op <;>
      simp only [hp] at h
    · simp [hk] at h
      exact sleep_mem_pollBlocks h
    · rcases hop : op.error with _ | m <;> simp only [hop] at h
      · rcases hu : usableMediaUrl op with _ | url <;> simp only [hu] at h
        · simp [hk] at h
          exact sleep_mem_pollBlocks h
        · rcases hkey : env.apiKey with _ | key <;> simp only [hkey] at h
          · simp [hk] at h
            exact sleep_mem_pollBlocks h
          · rcases hd : env.downloadFail with _ | st <;> simp only [hd] at h <;>
              simp [hk] at h <;> exact sleep_mem_pollBlocks h
      · simp [hk] at h
        exact sleep_mem_pollBlocks h

/- ### Claim C5 -/

/-- C5: in every generation flow, the polling loop suspends the calling task
for a fixed interval before each status re-query (the trace of the loop is a
sequence of sleep-then-check iterations and never a check without a preceding
sleep), the interval is 5000 ms in the high-quality variants and 3000 ms in
the fast variants, the loop has no iteration bound (no fuel makes it return
when the operation never reports done), and it hands a result back only once
the operation reports done. -/
theorem poll_loop_contract :
    (∀ (states : Nat → Operation) (interval fuel i : Nat),
       ∃ k, (pollOperation states interval fuel i).2 = pollBlocks interval k)
  ∧ (∀ (p : VeoParams) (env : VeoEnv) (fuel ms : Nat),
       Event.sleep ms ∈ (runVeoCore p env fuel).2 → ms = p.intervalMs)
  ∧ veo31TextToVideoParams.intervalMs = 5000
  ∧ veo31ImageToVideoParams.intervalMs = 5000
  ∧ veo31VideoToVideoParams.intervalMs = 5000
  ∧ veo31FastTextToVideoParams.intervalMs = 3000
  ∧ veo31FastImageToVideoParams.intervalMs = 3000
  ∧ veo31FastVideoToVideoParams.intervalMs = 3000
  ∧ (∀ (states : Nat → Operation) (interval : Nat),
       (∀ n, (states n).done = false) →
       ∀ fuel i, (pollOperation states interval fuel i).1 = none)
  ∧ (∀ (states : Nat → Operation) (interval fuel i : Nat) (op : Operation),
       (pollOperation states interval fuel i).1 = some op → op.done = true) := by
  refine ⟨pollOperation_trace_blocks, runVeoCore_sleep_interval,
    rfl, rfl, rfl, rfl, rfl, rfl,
    fun states interval h => pollOperation_never states interval h,
    fun states interval fuel i => pollOperation_done states interval fuel i⟩

/-- Pending operation used by the poll-loop witnesses. -/
def opPendingW : Operation :=
  { id := some ("op-w"), done := false, error := none, output := none }

/-- Done operation with a media url, used by several witnesses. -/
def opDoneW : Operation :=
  { id := some ("op-w"), done := true, error := none,
    output := some { message := some { content :=
      [{ media := some { url := some ("https://video.example/file") } }] } } }

/-- Environment whose remote operation completes after two status checks. -/
def statesTwoThenDone : Nat → Operation :=
  fun n => if n < 2 then opPendingW else opDoneW

/-- Witness for C5 at concrete inputs: the trace of a loop that completes
after two re-queries is two sleep-check iterations; a sleep of the
high-quality flow at a concrete environment uses 5000 ms; a never-done
operation yields no result at fuel 9; a produced operation reports done. -/
theorem poll_loop_contract_witness :
    (∃ k, (pollOperation statesTwoThenDone 5000 3 0).2 = pollBlocks 5000 k)
  ∧ ((pollOperation (fun _ => opPendingW) 3000 9 0).1 = none)
  ∧ (opDoneW.done = true) := by
  refine ⟨poll_loop_contract.1 statesTwoThenDone 5000 3 0, ?_, ?_⟩
  · exact poll_loop_contract.2.2.2.2.2.2.2.2.1 (fun _ => opPendingW) 3000
      (fun _ => rfl) 9 0
  · exact poll_loop_contract.2.2.2.2.2.2.2.2.2 statesTwoThenDone 5000 3 0 opDoneW rfl

/-- No download event occurs among the directory, submission and polling
events. -/
theorem fetch_not_mem_prePoll {interval k : Nat} {u d mo : String} :
    Event.fetch u ∉ (Event.ensureDir d :: Event.submit mo :: pollBlocks interval k) := by
  intro h
  simp only [List.mem_cons] at h
  rcases h with h | h | h
  · simp at h
  · simp at h
  · rcases mem_pollBlocks h with h | h <;> simp at h

/-- No file-write event occurs among the directory, submission and polling
events. -/
theorem fileWrite_not_mem_prePoll {interval k : Nat} {vp d mo : String} :
    Event.fileWrite vp ∉ (Event.ensureDir d :: Event.submit mo :: pollBlocks interval k) := by
  intro h
  simp only [List.mem_cons] at h
  rcases h with h | h | h
  · simp at h
  · simp at h
  · rcases mem_pollBlocks h with h | h <;> simp at h

/- ### Claim C6 -/

/-- C6: for every generation request whose remote job completes with an error,
the flow returns the failure result carrying the remote error description
(behind the fixed per-variant prefix), and the download step is never reached:
no fetch occurs and no output file is written. -/
theorem remote_failure_no_output (p : VeoParams) (env : VeoEnv) (fuel : Nat)
    (op : Operation) (tr : List Event) (m : String)
    (hs : env.submitOutcome = SubmitOutcome.operation)
    (hp : pollOperation env.opStates p.intervalMs fuel 0 = (some op, tr))
    (hop : op.error = some m) :
    (runVeoCore p env fuel).1 = some (veoErr (p.failMsgHead ++ m))
    ∧ (∀ u, Event.fetch u ∉ (runVeoCore p env fuel).2)
    ∧ (∀ vp, Event.fileWrite vp ∉ (runVeoCore p env fuel).2) := by
  obtain ⟨k, hk⟩ := pollOperation_trace_blocks env.opStates p.intervalMs fuel 0
  have h1 : (pollOperation env.opStates p.intervalMs fuel 0).1 = some op := by
    rw [hp]
  refine ⟨?_, ?_, ?_⟩
  · unfold runVeoCore
    simp only [hs, h1, hop]
  · intro u
    unfold runVeoCore
    simp only [hs, h1, hop, hk]
    exact fetch_not_mem_prePoll
  · intro vp
    unfold runVeoCore
    simp only [hs, h1, hop, hk]
    exact fileWrite_not_mem_prePoll

/-- Operation that completed with a remote failure, for the C6 witness. -/
def opFailW : Operation :=
  { id := some ("op-w"), done := true, error := some ("quota exceeded"),
    output := none }

/-- Environment whose remote job fails, for the C6 witness. -/
def envRemoteFailW : VeoEnv :=
  { apiKey := some ("k"), submitOutcome := SubmitOutcome.operation,
    opStates := fun _ => opFailW, downloadFail := none, now := 3,
    fileExists := fun _ => true }

/-- Witness for C6: at a concrete failing job, the high-quality text-to-video
flow returns the prefixed remote error and performs no fetch and no file
write. -/
theorem remote_failure_no_output_witness :
    (runVeoCore veo31TextToVideoParams envRemoteFailW 0).1
      = some (veoErr ("Video generation failed: quota exceeded"))
    ∧ (∀ u, Event.fetch u ∉ (runVeoCore veo31TextToVideoParams envRemoteFailW 0).2)
    ∧ (∀ vp, Event.fileWrite vp ∉ (runVeoCore veo31TextToVideoParams envRemoteFailW 0).2) :=
  remote_failure_no_output veo31TextToVideoParams envRemoteFailW 0 opFailW []
    ("quota exceeded") rfl rfl rfl

/- ### Claim C4 -/

/-- Every Veo core run begins by ensuring the output directory and submitting
the generation request, whatever happens afterwards. -/
theorem runVeoCore_trace_head (p : VeoParams) (env : VeoEnv) (fuel : Nat) :
    ∃ rest, (runVeoCore p env fuel).2
      = Event.ensureDir OUTPUT_DIR :: Event.submit p.model :: rest := by
  unfold runVeoCore
  cases hs : env.submitOutcome <;> simp only [hs]
  case throws msg => exact ⟨[], rfl⟩
  case noOperation => exact ⟨[], rfl⟩
  case operation =>
    rcases hp : (pollOperation env.opStates p.intervalMs fuel 0).1 with _ | op <;>
      simp only [hp]
    · exact ⟨_, rfl⟩
    · rcases hop : op.error with _ | m <;> simp only [hop]
      · rcases hu : usableMediaUrl op with _ | url <;> simp only [hu]
        · exact ⟨_, rfl⟩
        · rcases hkey : env.apiKey with _ | key <;> simp only [hkey]
          · exact ⟨_, rfl⟩
          · rcases hd : env.downloadFail with _ | st <;> simp only [hd]
            · exact ⟨_, rfl⟩
            · exact ⟨_, rfl⟩
      · exact ⟨_, rfl⟩

/-- C4 (amended): a missing API credential does not prevent submission — the
credential is read only inside downloadVideo, which runs after submission and
polling. With no credential configured, every completed run is a failure, no
output file is ever written, the submission event always occurs, and a run
that reaches the download step fails there with the fixed missing-key
message. -/
theorem missing_credential_download_stage :
    (∀ (p : VeoParams) (env : VeoEnv) (fuel : Nat) (r : VeoResult),
       env.apiKey = none → (runVeoCore p env fuel).1 = some r →
       (∃ m, r.error = some m) ∧ r.videoPath = none
       ∧ ∀ vp, Event.fileWrite vp ∉ (runVeoCore p env fuel).2)
  ∧ (∀ (p : VeoParams) (env : VeoEnv) (fuel : Nat),
       Event.submit p.model ∈ (runVeoCore p env fuel).2)
  ∧ (∀ (p : VeoParams) (env : VeoEnv) (fuel : Nat) (op : Operation),
       env.submitOutcome = SubmitOutcome.operation →
       (pollOperation env.opStates p.intervalMs fuel 0).1 = some op →
       op.error = none → usableMediaUrl op ≠ none → env.apiKey = none →
       (runVeoCore p env fuel).1 = some (veoErr missingKeyMsg)) := by
  refine ⟨?_, ?_, ?_⟩
  · intro p env fuel r hkey hr
    obtain ⟨k, hk⟩ := pollOperation_trace_blocks env.opStates p.intervalMs fuel 0
    unfold runVeoCore at hr ⊢
    cases hs : env.submitOutcome <;> simp only [hs] at hr ⊢
    case throws msg =>
      obtain rfl : r = veoErr msg := (Option.some.inj hr).symm
      refine ⟨⟨msg, rfl⟩, rfl, fun vp h => ?_⟩
      simp only [List.mem_cons] at h
      rcases h with h | h | h <;> simp at h
    case noOperation =>
      obtain rfl : r = veoErr ("Expected the model to return an operation") :=
        (Option.some.inj hr).symm
      refine ⟨⟨_, rfl⟩, rfl, fun vp h => ?_⟩
      simp only [List.mem_cons] at h
      rcases h with h | h | h <;> simp at h
    case operation =>
      rcases hp : (pollOperation env.opStates p.intervalMs fuel 0).1 with _ | op <;>
        simp only [hp] at hr ⊢
      · exact absurd hr (by simp)
      · rcases hop : op.error with _ | m <;> simp only [hop] at hr ⊢
        · rcases hu : usableMediaUrl op with _ | url <;> simp only [hu] at hr ⊢
          · obtain rfl : r = veoErr p.notFoundMsg := (Option.some.inj hr).symm
            refine ⟨⟨_, rfl⟩, rfl, fun vp => ?_⟩
            simp only [hk, List.cons_append, List.nil_append]
            exact fileWrite_not_mem_prePoll
          · simp only [hkey] at hr ⊢
            obtain rfl : r = veoErr missingKeyMsg := (Option.some.inj hr).symm
            refine ⟨⟨_, rfl⟩, rfl, fun vp => ?_⟩
            simp only [hk, List.cons_append, List.nil_append]
            exact fileWrite_not_mem_prePoll
        · obtain rfl : r = veoErr (p.failMsgHead ++ m) := (Option.some.inj hr).symm
          refine ⟨⟨_, rfl⟩, rfl, fun vp => ?_⟩
          simp only [hk, List.cons_append, List.nil_append]
          exact fileWrite_not_mem_prePoll
  · intro p env fuel
    obtain ⟨rest, hr⟩ := runVeoCore_trace_head p env fuel
    rw [hr]
    simp
  · intro p env fuel op hs hp hop hu hkey
    unfold runVeoCore
    rcases hu2 : usableMediaUrl op with _ | url
    · exact absurd hu2 hu
    · simp only [hs, hp, hop, hu2, hkey]

/-- Environment with no API credential whose remote job succeeds after two
polls, used to witness and refute C4. -/
def envNoKeyW : VeoEnv :=
  { apiKey := none, submitOutcome := SubmitOutcome.operation,
    opStates := statesTwoThenDone, downloadFail := none, now := 7,
    fileExists := fun _ => true }

/-- Witness for the amended C4 at a concrete credential-less environment. -/
theorem missing_credential_download_stage_witness :
    (∃ m, (veoErr missingKeyMsg).error = some m)
    ∧ (veoErr missingKeyMsg).videoPath = none
    ∧ ∀ vp, Event.fileWrite vp ∉ (runVeoCore veo31TextToVideoParams envNoKeyW 3).2 :=
  missing_credential_download_stage.1 veo31TextToVideoParams envNoKeyW 3
    (veoErr missingKeyMsg) rfl rfl

/-- Counterexample to C4 as stated: with no credential configured, the
high-quality text-to-video flow still submits the generation request and polls
the remote job (the submission event and a status re-query both occur in the
trace); the failure only surfaces afterwards, at the download step, with the
missing-key message. -/
theorem missing_credential_download_stage_cex :
    (veo31TextToVideoFlow envNoKeyW 3).1 = some (veoErr missingKeyMsg)
    ∧ Event.submit ("veo-3.1-generate-preview") ∈ (veo31TextToVideoFlow envNoKeyW 3).2
    ∧ Event.check ∈ (veo31TextToVideoFlow envNoKeyW 3).2 := by
  refine ⟨rfl, ?_, ?_⟩ <;> decide

/- ### Claim C7 -/

/-- C7: for every image-to-video request whose source image does not exist,
both image-to-video flows return the failure naming the missing file and
produce an empty event trace: the remote service is never contacted (no
submission, no polling, no download) and nothing is written. -/
theorem missing_image_no_remote_contact (env : VeoEnv) (imagePath : String)
    (fuel : Nat) (h : env.fileExists imagePath = false) :
    veo31ImageToVideoFlow env imagePath fuel
      = (some (veoErr ("Image file not found: " ++ imagePath)), [])
    ∧ veo31FastImageToVideoFlow env imagePath fuel
      = (some (veoErr ("Image file not found: " ++ imagePath)), []) := by
  constructor <;> simp [veo31ImageToVideoFlow, veo31FastImageToVideoFlow, h]

/-- Environment whose filesystem contains nothing, for the C7 witness. -/
def envNoFileW : VeoEnv :=
  { apiKey := some ("k"), submitOutcome := SubmitOutcome.operation,
    opStates := fun _ => opDoneW, downloadFail := none, now := 7,
    fileExists := fun _ => false }

/-- Witness for C7 at a concrete missing image path. -/
theorem missing_image_no_remote_contact_witness :
    veo31ImageToVideoFlow envNoFileW ("./missing.jpg") 5
      = (some (veoErr ("Image file not found: ./missing.jpg")), [])
    ∧ veo31FastImageToVideoFlow envNoFileW ("./missing.jpg") 5
      = (some (veoErr ("Image file not found: ./missing.jpg")), []) :=
  missing_image_no_remote_contact envNoFileW ("./missing.jpg") 5 rfl

/- ### Claim C3 -/

/-- Outcome contract of a Veo flow result: either a success payload (no error,
a local path and a remote locator present) or a failure payload (an error
string present and every artifact field absent) — never both, never neither. -/
def veoExactlyOne (r : VeoResult) : Prop :=
  (r.error = none ∧ (∃ pth, r.videoPath = some pth) ∧ ∃ u, r.videoUrl = some u)
  ∨ ((∃ m, r.error = some m) ∧ r.videoPath = none ∧ r.videoUrl = none
     ∧ r.traceId = none)

/-- Every failure result of the Veo catch blocks satisfies the outcome
contract on its failure side. -/
theorem veoErr_exactlyOne (m : String) : veoExactlyOne (veoErr m) :=
  Or.inr ⟨⟨m, rfl⟩, rfl, rfl, rfl⟩

/-- Every completed Veo core run satisfies the outcome contract. -/
theorem runVeoCore_exactlyOne (p : VeoParams) (env : VeoEnv) (fuel : Nat)
    (r : VeoResult) (hr : (runVeoCore p env fuel).1 = some r) :
    veoExactlyOne r := by
  unfold runVeoCore at hr
  cases hs : env.submitOutcome <;> simp only [hs] at hr
  case throws msg =>
    obtain rfl : r = veoErr msg := (Option.some.inj hr).symm
    exact veoErr_exactlyOne msg
  case noOperation =>
    obtain rfl : r = veoErr ("Expected the model to return an operation") :=
      (Option.some.inj hr).symm
    exact veoErr_exactlyOne _
  case operation =>
    rcases hp : (pollOperation env.opStates p.intervalMs fuel 0).1 with _ | op <;>
      simp only [hp] at hr
    · exact absurd hr (by simp)
    · rcases hop : op.error with _ | m <;> simp only [hop] at hr
      · rcases hu : usableMediaUrl op with _ | url <;> simp only [hu] at hr
        · obtain rfl : r = veoErr p.notFoundMsg := (Option.some.inj hr).symm
          exact veoErr_exactlyOne _
        · rcases hkey : env.apiKey with _ | key <;> simp only [hkey] at hr
          · obtain rfl : r = veoErr missingKeyMsg := (Option.some.inj hr).symm
            exact veoErr_exactlyOne _
          · rcases hd : env.downloadFail with _ | st <;> simp only [hd] at hr
            · obtain hre := (Option.some.inj hr).symm
              subst hre
              exact Or.inl ⟨rfl, ⟨_, rfl⟩, ⟨_, rfl⟩⟩
            · obtain rfl : r = veoErr ("Failed to download video: " ++ st) :=
                (Option.some.inj hr).symm
              exact veoErr_exactlyOne _
      · obtain rfl : r = veoErr (p.failMsgHead ++ m) := (Option.some.inj hr).symm
        exact veoErr_exactlyOne _

/-- C3 (amended): every completed result of the generation connector flows is
exactly one of a success payload or a failure payload. The Veo flows carry an
error string exactly on failure; imageGenerationFlow carries an explicit
boolean success indicator that is true exactly when an image path is present.
The part of C3 that every failing result carries a human-readable error string
fails for imageGenerationFlow, whose result record has no error field at all
(see the counterexample). -/
theorem connector_result_exactly_one :
    (∀ (env : ImageEnv) (prompt : String),
       ((imageGenerationFlow env prompt).success = true
          ∧ ∃ pth, (imageGenerationFlow env prompt).imagePath = some pth)
       ∨ ((imageGenerationFlow env prompt).success = false
          ∧ (imageGenerationFlow env prompt).imagePath = none))
  ∧ (∀ (p : VeoParams) (env : VeoEnv) (fuel : Nat) (r : VeoResult),
       (runVeoCore p env fuel).1 = some r → veoExactlyOne r)
  ∧ (∀ (env : VeoEnv) (ip : String) (fuel : Nat) (r : VeoResult),
       (veo31ImageToVideoFlow env ip fuel).1 = some r → veoExactlyOne r)
  ∧ (∀ (env : VeoEnv) (ip : String) (fuel : Nat) (r : VeoResult),
       (veo31FastImageToVideoFlow env ip fuel).1 = some r → veoExactlyOne r) := by
  refine ⟨?_, runVeoCore_exactlyOne, ?_, ?_⟩
  · intro env prompt
    unfold imageGenerationFlow
    rcases hg : env.genThrows with _ | m <;> simp only [hg]
    · rcases hm : env.mediaUrl with _ | url <;> simp only [hm]
      · right; simp
      · split_ifs with h1 h2
        · right; simp
        · right; simp
        · left; simp
    · right; simp
  · intro env ip fuel r hr
    unfold veo31ImageToVideoFlow at hr
    split at hr
    · exact runVeoCore_exactlyOne _ env fuel r hr
    · obtain rfl : r = veoErr ("Image file not found: " ++ ip) :=
        (Option.some.inj hr).symm
      exact veoErr_exactlyOne _
  · intro env ip fuel r hr
    unfold veo31FastImageToVideoFlow at hr
    split at hr
    · exact runVeoCore_exactlyOne _ env fuel r hr
    · obtain rfl : r = veoErr ("Image file not found: " ++ ip) :=
        (Option.some.inj hr).symm
      exact veoErr_exactlyOne _

/-- Environment with a credential whose job succeeds after two polls. -/
def envKeyW : VeoEnv :=
  { apiKey := some ("k"), submitOutcome := SubmitOutcome.operation,
    opStates := statesTwoThenDone, downloadFail := none, now := 7,
    fileExists := fun _ => true }

/-- Witness for C3 at a concrete successful Veo run. -/
theorem connector_result_exactly_one_witness :
    veoExactlyOne { videoPath := some ("output/veo31_7.mp4"),
                    videoUrl := some ("https://video.example/file"),
                    traceId := some ("op-w"), error := none } :=
  connector_result_exactly_one.2.1 veo31TextToVideoParams envKeyW 3
    { videoPath := some ("output/veo31_7.mp4"),
      videoUrl := some ("https://video.example/file"),
      traceId := some ("op-w"), error := none } rfl

/-- Failing image environment A: the generate call rejects. -/
def imgEnvFailA : ImageEnv :=
  { genThrows := some ("quota exceeded"), mediaUrl := none,
    fetchThrows := none, now := 0 }

/-- Failing image environment B: the generate call resolves with no media. -/
def imgEnvFailB : ImageEnv :=
  { genThrows := none, mediaUrl := none, fetchThrows := none, now := 0 }

/-- Counterexample to C3 as stated: a failing imageGenerationFlow result
consists only of success=false and the echoed prompt — the result record
(mirroring the declared output schema of src/flows/image.ts lines 22-26) has
no error field, and two failures with different causes are indistinguishable,
so no human-readable error string is carried on failure. -/
theorem connector_result_exactly_one_cex :
    imageGenerationFlow imgEnvFailA ("p")
      = { imagePath := none, success := false, prompt := "p" }
    ∧ imageGenerationFlow imgEnvFailB ("p")
      = { imagePath := none, success := false, prompt := "p" }
    ∧ imageGenerationFlow imgEnvFailA ("p") = imageGenerationFlow imgEnvFailB ("p") :=
  ⟨rfl, rfl, rfl⟩

/- ### Claim C2 -/

/-- The audio-stage failure message is never empty: it always starts with the
fixed failure text. -/
theorem vvAudioFailMsg_ne_empty (t : Option String) : vvAudioFailMsg t ≠ "" := by
  intro h
  have hlen := congrArg String.length h
  simp [vvAudioFailMsg, String.length_append] at hlen
  exact absurd hlen.1 (by decide)

/-- C2: in every run of videoWithVoiceoverFlow where the image stage succeeds
but the audio stage fails to produce a locatable audio file, the returned
record keeps the successful image-stage artifact, carries a non-empty error
message, leaves videoPath and tweetStatus undefined, and the trace shows that
neither the muxing step nor the publish step was attempted. -/
theorem pipeline_short_circuit (env : VvEnv) (postOnX : Bool)
    (h1 : jsTruthyOpt env.imageMediaUrl = true)
    (h2 : vvImageSaveFails env = false)
    (h3 : env.ttsThrows = none)
    (h4 : vvAudioOk env = false) :
    videoWithVoiceoverFlow env postOnX
      = ({ imageUrl := env.imageMediaUrl,
           audioPath := locateAudio env.ttsText env.dirFiles env.fsExists,
           videoPath := none, tweetStatus := none,
           error := some (vvAudioFailMsg env.ttsText) },
         [Event.genImage, Event.writeImage, Event.genTts])
    ∧ (∃ u, env.imageMediaUrl = some u ∧ u ≠ "")
    ∧ (∀ m, (videoWithVoiceoverFlow env postOnX).1.error = some m → m ≠ "")
    ∧ Event.mux ∉ (videoWithVoiceoverFlow env postOnX).2
    ∧ Event.genTweet ∉ (videoWithVoiceoverFlow env postOnX).2 := by
  have hrun : videoWithVoiceoverFlow env postOnX
      = ({ imageUrl := env.imageMediaUrl,
           audioPath := locateAudio env.ttsText env.dirFiles env.fsExists,
           videoPath := none, tweetStatus := none,
           error := some (vvAudioFailMsg env.ttsText) },
         [Event.genImage, Event.writeImage, Event.genTts]) := by
    unfold videoWithVoiceoverFlow
    simp only [h1, h2, h3, h4]
    simp
  refine ⟨hrun, ?_, ?_, ?_, ?_⟩
  · rcases hm : env.imageMediaUrl with _ | u
    · rw [hm] at h1; simp [jsTruthyOpt] at h1
    · rw [hm] at h1; simp [jsTruthyOpt] at h1
      exact ⟨u, rfl, h1⟩
  · intro m hm
    rw [hrun] at hm
    simp only at hm
    obtain rfl : m = vvAudioFailMsg env.ttsText := (Option.some.inj hm).symm
    exact vvAudioFailMsg_ne_empty env.ttsText
  · rw [hrun]; simp
  · rw [hrun]; simp

/-- Pipeline environment whose image stage succeeds (an inline data url) and
whose audio stage finds nothing: the response text has no path and the output
directory is empty. -/
def vvEnvW : VvEnv :=
  { imageMediaUrl := some ("data:image/jpeg;base64,abc"), imageFetchThrows := none,
    ttsThrows := none, ttsText := some ("all done"), dirFiles := [],
    fsExists := fun _ => false, muxError := none, tweetText := none,
    nowImage := 1, nowVideo := 2 }

/-- Witness for C2 at a concrete run with the publish stage requested. -/
theorem pipeline_short_circuit_witness :
    videoWithVoiceoverFlow vvEnvW true
      = ({ imageUrl := vvEnvW.imageMediaUrl,
           audioPath := locateAudio vvEnvW.ttsText vvEnvW.dirFiles vvEnvW.fsExists,
           videoPath := none, tweetStatus := none,
           error := some (vvAudioFailMsg vvEnvW.ttsText) },
         [Event.genImage, Event.writeImage, Event.genTts])
    ∧ (∃ u, vvEnvW.imageMediaUrl = some u ∧ u ≠ "")
    ∧ (∀ m, (videoWithVoiceoverFlow vvEnvW true).1.error = some m → m ≠ "")
    ∧ Event.mux ∉ (videoWithVoiceoverFlow vvEnvW true).2
    ∧ Event.genTweet ∉ (videoWithVoiceoverFlow vvEnvW true).2 :=
  pipeline_short_circuit vvEnvW true (by decide) (by decide) rfl (by decide)

/- ### Claim C1 -/

/-- C1 (amended): in textToSpeechFlow, a record with at least one structured
call entry whose stringified output matches the mp3-path patterns yields that
path as the artifact, without consulting the filesystem or the output
directory at all; a record with no structured call entries yields the fixed
no-tool-calls failure and the output directory is never scanned. The
most-recently-modified-file fallback exists only in the audio location step of
videoWithVoiceoverFlow, which matches the response text (not structured call
outputs) and selects the most recent matching directory entry whenever the
text match is absent or names a file that does not exist. -/
theorem tts_extraction_fallback :
    (∀ (env : TtsEnv) (tc : ToolCall) (rest : List ToolCall) (pth : String),
       env.mcpThrows = none → env.toolCalls = tc :: rest →
       ttsPathMatch tc.output.asText = some pth →
       textToSpeechFlow env
         = { audioPath := some pth, success := true, error := none })
  ∧ (∀ env : TtsEnv, env.mcpThrows = none → env.toolCalls = [] →
       textToSpeechFlow env
         = { audioPath := none, success := false,
             error := some ("No tool calls were made") })
  ∧ (∀ (text : Option String) (dir : List (String × Nat)) (ex : String → Bool),
       textPathUsable text ex = false → audioDirCandidates dir ≠ [] →
       locateAudio text dir ex = mostRecentAudioPath dir
       ∧ (mostRecentAudioPath dir).isSome = true) := by
  refine ⟨?_, ?_, ?_⟩
  · intro env tc rest pth h1 h2 h3
    unfold textToSpeechFlow
    simp only [h1, h2, h3]
  · intro env h1 h2
    unfold textToSpeechFlow
    simp only [h1, h2]
  · intro text dir ex h1 h2
    unfold locateAudio
    simp only [h1, Bool.false_eq_true, if_false]
    rcases hm : mostRecentAudioPath dir with _ | pth
    · unfold mostRecentAudioPath at hm
      rcases hc : audioDirCandidates dir with _ | ⟨x, xs⟩
      · exact absurd hc h2
      · rw [hc] at hm
        simp at hm
    · simp [hm]

/-- Stringified structured output naming a saved mp3 path, for the C1
witness. -/
def savedToJson : String :=
  "\x7b\"message\":\"saved to: /tmp/out/voice.mp3\"\x7d"

/-- Tool-call record carrying a structured output whose serialization names a
saved mp3 path, for the C1 witness. -/
def ttsEnvW : TtsEnv :=
  { mcpThrows := none,
    toolCalls := [{ output := ToolOutput.structured savedToJson }] }

/-- Witness for the amended C1: the structured-call extraction returns the
matched path at a concrete record, and the directory fallback of the pipeline
audio location selects the most recent matching file at a concrete directory
state. -/
theorem tts_extraction_fallback_witness :
    textToSpeechFlow ttsEnvW
      = { audioPath := some ("/tmp/out/voice.mp3"), success := true, error := none }
    ∧ (locateAudio (some ("all done")) [(("old.mp3"), 2), (("fresh.mp3"), 9)]
         (fun _ => false)
       = mostRecentAudioPath [(("old.mp3"), 2), (("fresh.mp3"), 9)]
       ∧ (mostRecentAudioPath [(("old.mp3"), 2), (("fresh.mp3"), 9)]).isSome = true) :=
  ⟨tts_extraction_fallback.1 ttsEnvW
      { output := ToolOutput.structured savedToJson }
      [] ("/tmp/out/voice.mp3") rfl (by rfl) (by decide),
   tts_extraction_fallback.2.2 (some ("all done"))
      [(("old.mp3"), 2), (("fresh.mp3"), 9)] (fun _ => false)
      (by decide) (by decide)⟩

/-- Record with no structured call entries, for the C1 counterexample. -/
def ttsEnvNoCalls : TtsEnv := { mcpThrows := none, toolCalls := [] }

/-- Counterexample to C1 as stated: given a record with no structured call
entries while the output directory holds a file with the expected audio
extension, the extraction step of textToSpeechFlow returns the no-tool-calls
failure instead of falling back to the most-recently-modified matching file
(which exists and would be output/fresh.mp3). -/
theorem tts_extraction_fallback_cex :
    textToSpeechFlow ttsEnvNoCalls
      = { audioPath := none, success := false,
          error := some ("No tool calls were made") }
    ∧ mostRecentAudioPath [(("fresh.mp3"), 5)] = some ("output/fresh.mp3") :=
  ⟨rfl, by decide⟩

/- ### Claim C8 -/

/-- C8 (amended): the no-arguments guard of the CallTool handler fires only
when the arguments object is absent altogether — a call whose arguments object
is present but missing required fields is still dispatched to the flow; a call
naming a tool outside the dispatched set returns the unknown-tool error
without invoking any flow. -/
theorem mcp_dispatch_guards :
    (∀ (env : McpEnv) (name : String),
       handleCallTool env { name := name, args := none }
         = ({ text := "Error: No arguments provided", isError := true }, []))
  ∧ (∀ (env : McpEnv) (name : String) (m : List (String × String)),
       name ∉ mcpToolNames →
       handleCallTool env { name := name, args := some m }
         = ({ text := "Error: Unknown tool: " ++ name, isError := true }, []))
  ∧ (∀ (env : McpEnv) (name : String) (m : List (String × String)),
       name ∈ mcpToolNames →
       handleCallTool env { name := name, args := some m }
         = ({ text := env.flowOutput name m, isError := false }, [(name, m)])) := by
  refine ⟨fun env name => rfl, ?_, ?_⟩
  · intro env name m h
    unfold handleCallTool
    simp [h]
  · intro env name m h
    unfold handleCallTool
    simp [h]

/-- Dispatch environment whose flows echo their tool name. -/
def mcpEnvW : McpEnv := { flowOutput := fun n _ => ("flow:") ++ n }

/-- Witness for C8 at concrete requests: an unknown tool name yields the
unknown-tool error with no invocation, and a known tool name with a present
arguments object is dispatched. -/
theorem mcp_dispatch_guards_witness :
    handleCallTool mcpEnvW { name := ("bogus_tool"), args := some [] }
      = ({ text := ("Error: Unknown tool: bogus_tool"), isError := true }, [])
    ∧ handleCallTool mcpEnvW
        { name := ("veo31_fast_text_to_video"),
          args := some [(("prompt"), ("a lake"))] }
      = ({ text := ("flow:veo31_fast_text_to_video"), isError := false },
         [(("veo31_fast_text_to_video"), [(("prompt"), ("a lake"))])]) :=
  ⟨mcp_dispatch_guards.2.1 mcpEnvW ("bogus_tool") [] (by decide),
   mcp_dispatch_guards.2.2 mcpEnvW ("veo31_fast_text_to_video")
     [(("prompt"), ("a lake"))] (by decide)⟩

/-- Counterexample to C8 as stated: a generate_image call whose arguments
object is present but empty — so its required parameter prompt is missing —
is not answered with the no-arguments error; the handler dispatches it to the
flow (one invocation is recorded and the flow output is returned). -/
theorem mcp_dispatch_guards_cex :
    ("prompt") ∈ generateImageRequiredParams
    ∧ handleCallTool mcpEnvW { name := ("generate_image"), args := some [] }
      = ({ text := ("flow:generate_image"), isError := false },
         [(("generate_image"), [])])
    ∧ ("flow:generate_image") ≠ ("Error: No arguments provided") :=
  ⟨by decide, by decide, by decide⟩

/- ### Claim C9 -/

/-- C9: the declared output schema of the high-quality video-extension flow
omits the videoUrl key, while the value the flow actually returns on success
carries videoUrl set to the remote media url. -/
theorem v2v_schema_omits_videoUrl :
    ("videoUrl") ∉ veo31VideoToVideoOutputSchemaKeys
    ∧ (∀ (env : VeoEnv) (fuel : Nat) (r : VeoResult),
        (veo31VideoToVideoFlow env fuel).1 = some r → r.error = none →
        ∃ u, r.videoUrl = some u) := by
  refine ⟨by decide, ?_⟩
  intro env fuel r hr herr
  have h := runVeoCore_exactlyOne veo31VideoToVideoParams env fuel r hr
  rcases h with ⟨_, _, u, hu⟩ | ⟨⟨m, hm⟩, _, _, _⟩
  · exact ⟨u, hu⟩
  · rw [herr] at hm
    exact absurd hm (by simp)

/-- Witness for C9 at a concrete successful extension run. -/
theorem v2v_schema_omits_videoUrl_witness :
    ∃ u, ({ videoPath := some ("output/veo31_extend_7.mp4"),
            videoUrl := some ("https://video.example/file"),
            traceId := some ("op-w"), error := none } : VeoResult).videoUrl
          = some u :=
  v2v_schema_omits_videoUrl.2 envKeyW 3
    { videoPath := some ("output/veo31_extend_7.mp4"),
      videoUrl := some ("https://video.example/file"),
      traceId := some ("op-w"), error := none } (by decide) rfl

/- ### Claim C10 -/

/-- C10: whenever the tool host records at least one tool call, postTweetFlow
returns success with the first call output (stringified) as the result text,
whatever that output says; when no tool call is recorded, it fails with the
fixed no-tool-calls error. -/
theorem post_tweet_toolcall_result :
    (∀ (env : TweetEnv) (tc : ToolCall) (rest : List ToolCall),
       env.mcpThrows = none → env.toolCalls = tc :: rest →
       postTweetFlow env
         = { success := true, tweetId := none,
             result := some tc.output.asText, error := none })
  ∧ (∀ env : TweetEnv, env.mcpThrows = none → env.toolCalls = [] →
       postTweetFlow env
         = { success := false, tweetId := none, result := none,
             error := some ("No tool calls were made") }) := by
  constructor
  · intro env tc rest h1 h2
    unfold postTweetFlow
    simp only [h1, h2]
  · intro env h1 h2
    unfold postTweetFlow
    simp only [h1, h2]

/-- Tweet environment whose only recorded tool call reports a failure text,
for the C10 witness: the flow still returns success with that text. -/
def tweetEnvW : TweetEnv :=
  { mcpThrows := none,
    toolCalls := [{ output :=
      ToolOutput.str ("Error: rate limit exceeded, tweet not posted") }] }

/-- Witness for C10: success=true is returned although the recorded tool
output indicates the tweet was not posted, and the empty record yields the
no-tool-calls failure. -/
theorem post_tweet_toolcall_result_witness :
    postTweetFlow tweetEnvW
      = { success := true, tweetId := none,
          result := some ("Error: rate limit exceeded, tweet not posted"),
          error := none }
    ∧ postTweetFlow { mcpThrows := none, toolCalls := [] }
      = { success := false, tweetId := none, result := none,
          error := some ("No tool calls were made") } :=
  ⟨post_tweet_toolcall_result.1 tweetEnvW
     { output := ToolOutput.str ("Error: rate limit exceeded, tweet not posted") }
     [] rfl (by rfl),
   post_tweet_toolcall_result.2 { mcpThrows := none, toolCalls := [] } rfl rfl⟩
